import Mathlib

/-!
# IAgoraMediaEngine.h: frame types, enumerations and observer defaults

A shallow embedding of `Android/lib-raw-data/src/main/cpp/include/IAgoraMediaEngine.h`.

* A C++ enumeration becomes an inductive type with one constructor per enumerator,
  a function `toInt` giving the enumerator's numeric code and a function `ofInt`
  reading a code back (what a cast from `int` does for a declared code).
* A plain `struct` becomes a structure, `int` and `int64_t` fields are `Int`,
  `unsigned int` is `Nat`, a `void*` is the address it holds (`Nat`, 0 for null).
  The header does no arithmetic on these fields, so no wrap-around is involved.
* An observer class becomes a structure of its virtual methods over the state `σ`
  of the implementing object. A method takes the object state (and the frame it
  gets by reference) and returns its result with the frame and the state as it
  leaves them. A method with a body in the header is a field with that body as
  default value; a pure virtual method is a field without default, so that an
  observer "which overrides nothing" is one built from the pure virtual methods
  alone.
-/

namespace agora
namespace media

/-- The `MEDIA_SOURCE_TYPE` enumeration. -/
inductive MEDIA_SOURCE_TYPE where
  | AUDIO_PLAYOUT_SOURCE
  | AUDIO_RECORDING_SOURCE
  deriving DecidableEq, Repr

/-- Numeric codes of `MEDIA_SOURCE_TYPE`. -/
def MEDIA_SOURCE_TYPE.toInt : MEDIA_SOURCE_TYPE → Int
  | .AUDIO_PLAYOUT_SOURCE => 0
  | .AUDIO_RECORDING_SOURCE => 1

/-! ## IAudioFrameObserver -/

/-- The `IAudioFrameObserver::AUDIO_FRAME_TYPE` enumeration (PCM 16bit little endian). -/
inductive IAudioFrameObserver.AUDIO_FRAME_TYPE where
  | FRAME_TYPE_PCM16
  deriving DecidableEq, Repr

namespace IAudioFrameObserver

/-- Numeric codes of `AUDIO_FRAME_TYPE`. -/
def AUDIO_FRAME_TYPE.toInt : AUDIO_FRAME_TYPE → Int
  | .FRAME_TYPE_PCM16 => 0

/-- The enumerators `AUDIO_FRAME_TYPE` declares, in declaration order. -/
def AUDIO_FRAME_TYPE.enumerators : List AUDIO_FRAME_TYPE :=
  [.FRAME_TYPE_PCM16]

/-- The enumerator a numeric code stands for, if it is a declared one. -/
def AUDIO_FRAME_TYPE.ofInt (c : Int) : Option AUDIO_FRAME_TYPE :=
  AUDIO_FRAME_TYPE.enumerators.find? (fun t => t.toInt == c)

/-- The `IAudioFrameObserver::AudioFrame` struct. -/
structure AudioFrame where
  type : AUDIO_FRAME_TYPE
  samples : Int
  bytesPerSample : Int
  channels : Int
  samplesPerSec : Int
  buffer : Nat
  renderTimeMs : Int
  avsync_type : Int
  deriving DecidableEq, Repr

end IAudioFrameObserver

/-- The `IAudioFrameObserver` class: four pure virtual callbacks. -/
structure IAudioFrameObserver (σ : Type) where
  onRecordAudioFrame :
    σ → IAudioFrameObserver.AudioFrame → (Bool × IAudioFrameObserver.AudioFrame) × σ
  onPlaybackAudioFrame :
    σ → IAudioFrameObserver.AudioFrame → (Bool × IAudioFrameObserver.AudioFrame) × σ
  onMixedAudioFrame :
    σ → IAudioFrameObserver.AudioFrame → (Bool × IAudioFrameObserver.AudioFrame) × σ
  onPlaybackAudioFrameBeforeMixing :
    σ → Nat → IAudioFrameObserver.AudioFrame → (Bool × IAudioFrameObserver.AudioFrame) × σ

/-! ## IVideoFrameObserver -/

/-- The `IVideoFrameObserver::VIDEO_FRAME_TYPE` enumeration. -/
inductive IVideoFrameObserver.VIDEO_FRAME_TYPE where
  | FRAME_TYPE_YUV420
  | FRAME_TYPE_YUV422
  | FRAME_TYPE_RGBA
  deriving DecidableEq, Repr

namespace IVideoFrameObserver

/-- Numeric codes of `VIDEO_FRAME_TYPE`. -/
def VIDEO_FRAME_TYPE.toInt : VIDEO_FRAME_TYPE → Int
  | .FRAME_TYPE_YUV420 => 0
  | .FRAME_TYPE_YUV422 => 1
  | .FRAME_TYPE_RGBA => 2

/-- The enumerators `VIDEO_FRAME_TYPE` declares, in declaration order. -/
def VIDEO_FRAME_TYPE.enumerators : List VIDEO_FRAME_TYPE :=
  [.FRAME_TYPE_YUV420, .FRAME_TYPE_YUV422, .FRAME_TYPE_RGBA]

/-- The enumerator a numeric code stands for, if it is a declared one. -/
def VIDEO_FRAME_TYPE.ofInt (c : Int) : Option VIDEO_FRAME_TYPE :=
  VIDEO_FRAME_TYPE.enumerators.find? (fun t => t.toInt == c)

/-- The `IVideoFrameObserver::VideoFrame` struct. -/
structure VideoFrame where
  type : VIDEO_FRAME_TYPE
  width : Int
  height : Int
  yStride : Int
  uStride : Int
  vStride : Int
  yBuffer : Nat
  uBuffer : Nat
  vBuffer : Nat
  rotation : Int
  renderTimeMs : Int
  avsync_type : Int
  deriving DecidableEq, Repr

end IVideoFrameObserver

open IVideoFrameObserver in
/-- The `IVideoFrameObserver` class. `onCaptureVideoFrame` and `onRenderVideoFrame`
are pure virtual; the other five methods have the bodies the header gives them. -/
structure IVideoFrameObserver (σ : Type) where
  onCaptureVideoFrame : σ → VideoFrame → (Bool × VideoFrame) × σ
  onPreEncodeVideoFrame : σ → VideoFrame → (Bool × VideoFrame) × σ :=
    fun self videoFrame => ((true, videoFrame), self)
  onRenderVideoFrame : σ → Nat → VideoFrame → (Bool × VideoFrame) × σ
  getVideoFormatPreference : σ → VIDEO_FRAME_TYPE × σ :=
    fun self => (VIDEO_FRAME_TYPE.FRAME_TYPE_YUV420, self)
  getRotationApplied : σ → Bool × σ := fun self => (false, self)
  getMirrorApplied : σ → Bool × σ := fun self => (false, self)
  getSmoothRenderingEnabled : σ → Bool × σ := fun self => (false, self)

/-! ## IVideoFrame enumerations -/

/-- The `IVideoFrame::PLANE_TYPE` enumeration. -/
inductive IVideoFrame.PLANE_TYPE where
  | Y_PLANE
  | U_PLANE
  | V_PLANE
  | NUM_OF_PLANES
  deriving DecidableEq, Repr

/-- The `IVideoFrame::VIDEO_TYPE` enumeration. -/
inductive IVideoFrame.VIDEO_TYPE where
  | VIDEO_TYPE_UNKNOWN
  | VIDEO_TYPE_I420
  | VIDEO_TYPE_IYUV
  | VIDEO_TYPE_RGB24
  | VIDEO_TYPE_ABGR
  | VIDEO_TYPE_ARGB
  | VIDEO_TYPE_ARGB4444
  | VIDEO_TYPE_RGB565
  | VIDEO_TYPE_ARGB1555
  | VIDEO_TYPE_YUY2
  | VIDEO_TYPE_YV12
  | VIDEO_TYPE_UYVY
  | VIDEO_TYPE_MJPG
  | VIDEO_TYPE_NV21
  | VIDEO_TYPE_NV12
  | VIDEO_TYPE_BGRA
  | VIDEO_TYPE_RGBA
  | VIDEO_TYPE_I422
  deriving DecidableEq, Repr

namespace IVideoFrame

/-- Numeric codes of `PLANE_TYPE`. -/
def PLANE_TYPE.toInt : PLANE_TYPE → Int
  | .Y_PLANE => 0
  | .U_PLANE => 1
  | .V_PLANE => 2
  | .NUM_OF_PLANES => 3

/-- The enumerators `PLANE_TYPE` declares, in declaration order. -/
def PLANE_TYPE.enumerators : List PLANE_TYPE :=
  [.Y_PLANE, .U_PLANE, .V_PLANE, .NUM_OF_PLANES]

/-- The enumerators of `PLANE_TYPE` that name a plane of the frame; the last
enumerator, `NUM_OF_PLANES`, is their count and names none. -/
def PLANE_TYPE.planes : List PLANE_TYPE :=
  [.Y_PLANE, .U_PLANE, .V_PLANE]

/-- Numeric codes of `VIDEO_TYPE`. -/
def VIDEO_TYPE.toInt : VIDEO_TYPE → Int
  | .VIDEO_TYPE_UNKNOWN => 0
  | .VIDEO_TYPE_I420 => 1
  | .VIDEO_TYPE_IYUV => 2
  | .VIDEO_TYPE_RGB24 => 3
  | .VIDEO_TYPE_ABGR => 4
  | .VIDEO_TYPE_ARGB => 5
  | .VIDEO_TYPE_ARGB4444 => 6
  | .VIDEO_TYPE_RGB565 => 7
  | .VIDEO_TYPE_ARGB1555 => 8
  | .VIDEO_TYPE_YUY2 => 9
  | .VIDEO_TYPE_YV12 => 10
  | .VIDEO_TYPE_UYVY => 11
  | .VIDEO_TYPE_MJPG => 12
  | .VIDEO_TYPE_NV21 => 13
  | .VIDEO_TYPE_NV12 => 14
  | .VIDEO_TYPE_BGRA => 15
  | .VIDEO_TYPE_RGBA => 16
  | .VIDEO_TYPE_I422 => 17

/-- The enumerators `VIDEO_TYPE` declares, in declaration order. -/
def VIDEO_TYPE.enumerators : List VIDEO_TYPE :=
  [.VIDEO_TYPE_UNKNOWN, .VIDEO_TYPE_I420, .VIDEO_TYPE_IYUV, .VIDEO_TYPE_RGB24,
   .VIDEO_TYPE_ABGR, .VIDEO_TYPE_ARGB, .VIDEO_TYPE_ARGB4444, .VIDEO_TYPE_RGB565,
   .VIDEO_TYPE_ARGB1555, .VIDEO_TYPE_YUY2, .VIDEO_TYPE_YV12, .VIDEO_TYPE_UYVY,
   .VIDEO_TYPE_MJPG, .VIDEO_TYPE_NV21, .VIDEO_TYPE_NV12, .VIDEO_TYPE_BGRA,
   .VIDEO_TYPE_RGBA, .VIDEO_TYPE_I422]

/-- The enumerator a numeric code stands for, if it is a declared one. -/
def VIDEO_TYPE.ofInt (c : Int) : Option VIDEO_TYPE :=
  VIDEO_TYPE.enumerators.find? (fun t => t.toInt == c)

end IVideoFrame

/-! ## ExternalVideoFrame -/

/-- The `ExternalVideoFrame::VIDEO_BUFFER_TYPE` enumeration. -/
inductive ExternalVideoFrame.VIDEO_BUFFER_TYPE where
  | VIDEO_BUFFER_RAW_DATA
  deriving DecidableEq, Repr

/-- The `ExternalVideoFrame::VIDEO_PIXEL_FORMAT` enumeration. -/
inductive ExternalVideoFrame.VIDEO_PIXEL_FORMAT where
  | VIDEO_PIXEL_UNKNOWN
  | VIDEO_PIXEL_I420
  | VIDEO_PIXEL_BGRA
  | VIDEO_PIXEL_NV12
  | VIDEO_PIXEL_I422
  deriving DecidableEq, Repr

namespace ExternalVideoFrame

/-- Numeric codes of `VIDEO_BUFFER_TYPE`. -/
def VIDEO_BUFFER_TYPE.toInt : VIDEO_BUFFER_TYPE → Int
  | .VIDEO_BUFFER_RAW_DATA => 1

/-- Numeric codes of `VIDEO_PIXEL_FORMAT`. -/
def VIDEO_PIXEL_FORMAT.toInt : VIDEO_PIXEL_FORMAT → Int
  | .VIDEO_PIXEL_UNKNOWN => 0
  | .VIDEO_PIXEL_I420 => 1
  | .VIDEO_PIXEL_BGRA => 2
  | .VIDEO_PIXEL_NV12 => 8
  | .VIDEO_PIXEL_I422 => 16

/-- The enumerators `VIDEO_PIXEL_FORMAT` declares, in declaration order. -/
def VIDEO_PIXEL_FORMAT.enumerators : List VIDEO_PIXEL_FORMAT :=
  [.VIDEO_PIXEL_UNKNOWN, .VIDEO_PIXEL_I420, .VIDEO_PIXEL_BGRA, .VIDEO_PIXEL_NV12,
   .VIDEO_PIXEL_I422]

/-- The enumerator a numeric code stands for, if it is a declared one. -/
def VIDEO_PIXEL_FORMAT.ofInt (c : Int) : Option VIDEO_PIXEL_FORMAT :=
  VIDEO_PIXEL_FORMAT.enumerators.find? (fun t => t.toInt == c)

end ExternalVideoFrame

/-- The `VIDEO_TYPE` enumerator whose name ends as that of the `VIDEO_PIXEL_FORMAT`
enumerator (the same pixel format under both enumerations); `VIDEO_PIXEL_UNKNOWN`
names no format. -/
def ExternalVideoFrame.VIDEO_PIXEL_FORMAT.sameFormat :
    ExternalVideoFrame.VIDEO_PIXEL_FORMAT → Option IVideoFrame.VIDEO_TYPE
  | .VIDEO_PIXEL_UNKNOWN => none
  | .VIDEO_PIXEL_I420 => some .VIDEO_TYPE_I420
  | .VIDEO_PIXEL_BGRA => some .VIDEO_TYPE_BGRA
  | .VIDEO_PIXEL_NV12 => some .VIDEO_TYPE_NV12
  | .VIDEO_PIXEL_I422 => some .VIDEO_TYPE_I422

/-- The `VIDEO_TYPE` enumerator naming the pixel format of a `VIDEO_FRAME_TYPE`
enumerator: planar YUV 4:2:0 is I420, planar YUV 4:2:2 is I422, RGBA is RGBA. -/
def IVideoFrameObserver.VIDEO_FRAME_TYPE.sameFormat :
    IVideoFrameObserver.VIDEO_FRAME_TYPE → IVideoFrame.VIDEO_TYPE
  | .FRAME_TYPE_YUV420 => .VIDEO_TYPE_I420
  | .FRAME_TYPE_YUV422 => .VIDEO_TYPE_I422
  | .FRAME_TYPE_RGBA => .VIDEO_TYPE_RGBA

/-- The `ExternalVideoFrame` struct. -/
structure ExternalVideoFrame where
  type : ExternalVideoFrame.VIDEO_BUFFER_TYPE
  format : ExternalVideoFrame.VIDEO_PIXEL_FORMAT
  buffer : Nat
  stride : Int
  height : Int
  cropLeft : Int
  cropTop : Int
  cropRight : Int
  cropBottom : Int
  rotation : Int
  timestamp : Int
  deriving DecidableEq, Repr

/-! ## The frame behind `IVideoFrame`

`IVideoFrame` is an interface of pure virtual methods: the header declares
`copyFrame`, `allocated_size`, `IsZeroSize` and the other accessors and gives a
comment on each, and the class that implements them is not part of the header. -/

namespace IVideoFrame

/-- Modelled from the spec: the storage of one plane, which the header leaves to the
implementing class. `data` is the allocated buffer, byte by byte, so that its length
is the plane's allocated size; `stride` is the allocated stride and `rows` the
plane's height (the spec's `height_for(plane)`, the frame height for luma and the
height the chroma subsampling gives for U and V). -/
structure Plane where
  data : List (Fin 256)
  stride : Nat
  rows : Nat
  deriving DecidableEq, Repr

/-- Modelled from the spec: the bytes a plane needs for its picture,
`stride(plane) * height_for(plane)` (absent from the header). -/
def Plane.required (p : Plane) : Nat := p.stride * p.rows

/-- Modelled from the spec: the contents of a plane, the first
`stride(plane) * height_for(plane)` bytes of its buffer (absent from the header). -/
def Plane.contents (p : Plane) : List (Fin 256) := p.data.take p.required

/-- Modelled from the spec: copying one plane into a destination plane, the step of
`copyFrame` the header only describes: "If required size is bigger than allocated one,
new buffers of adequate size will be allocated", in the spec's words the copy "reuses
destination buffers if already large enough, else reallocates". `alloc n` says whether
the allocator grants a buffer of `n` bytes; `none` is a failed allocation. -/
def Plane.copyInto (alloc : Nat → Bool) (src : Plane) (dest : Option Plane) : Option Plane :=
  let fresh : Option Plane :=
    if alloc src.required then
      some { data := src.contents, stride := src.stride, rows := src.rows }
    else none
  match dest with
  | some d =>
    if src.required ≤ d.data.length then
      some { data := src.contents ++ d.data.drop src.required,
             stride := src.stride, rows := src.rows }
    else fresh
  | none => fresh

end IVideoFrame

/-- Modelled from the spec: the state of an object implementing `IVideoFrame`, which
the header leaves out: the three planes the plane enumeration names, the frame's
width and height, its 90 kHz timestamp, its render time and its video type. -/
structure IVideoFrame where
  y_plane : IVideoFrame.Plane
  u_plane : IVideoFrame.Plane
  v_plane : IVideoFrame.Plane
  width : Int
  height : Int
  timestamp : Nat
  render_time_ms : Int
  video_type : IVideoFrame.VIDEO_TYPE
  deriving DecidableEq, Repr

namespace IVideoFrame

/-- Modelled from the spec: the plane a `PLANE_TYPE` names (the implementing class is
absent from the header); `NUM_OF_PLANES` names none, the spec's constraint being
`plane ∈ {Y,U,V}`. -/
def plane? (f : IVideoFrame) : PLANE_TYPE → Option Plane
  | .Y_PLANE => some f.y_plane
  | .U_PLANE => some f.u_plane
  | .V_PLANE => some f.v_plane
  | .NUM_OF_PLANES => none

/-- Modelled from the spec: `buffer(type)`, pure virtual in the header, "a read-only
view into one of three planes"; no result for a `type` that names no plane. -/
def buffer (f : IVideoFrame) (type : PLANE_TYPE) : Option (List (Fin 256)) :=
  (f.plane? type).map (fun p => p.data)

/-- Modelled from the spec: `allocated_size(type)`, pure virtual in the header, "Get
allocated size per plane"; no result for a `type` that names no plane. -/
def allocated_size (f : IVideoFrame) (type : PLANE_TYPE) : Option Int :=
  (f.plane? type).map (fun p => (p.data.length : Int))

/-- Modelled from the spec: `stride(type)`, pure virtual in the header, "Get allocated
stride per plane"; no result for a `type` that names no plane. -/
def stride (f : IVideoFrame) (type : PLANE_TYPE) : Option Int :=
  (f.plane? type).map (fun p => (p.stride : Int))

/-- Modelled from the spec: the contents of the plane `type` names (absent from the
header), the bytes `copyFrame` has to reproduce. -/
def contents (f : IVideoFrame) (type : PLANE_TYPE) : Option (List (Fin 256)) :=
  (f.plane? type).map Plane.contents

/-- Modelled from the spec: `GetVideoType()`, pure virtual in the header. -/
def GetVideoType (f : IVideoFrame) : VIDEO_TYPE := f.video_type

/-- Modelled from the spec: the frame invariant the spec states and the header does
not, `allocated_size(plane) ≥ stride(plane) * height_for(plane)` for each plane. -/
def valid (f : IVideoFrame) : Bool :=
  decide (f.y_plane.required ≤ f.y_plane.data.length) &&
  decide (f.u_plane.required ≤ f.u_plane.data.length) &&
  decide (f.v_plane.required ≤ f.v_plane.data.length)

/-- Modelled from the spec: `IsZeroSize()`, pure virtual in the header, whose comment
reads "Return true if underlying plane buffers are of zero size, false if not". -/
def IsZeroSize (f : IVideoFrame) : Bool :=
  f.y_plane.data.isEmpty && f.u_plane.data.isEmpty && f.v_plane.data.isEmpty

/-- Modelled from the spec: `copyFrame(dest_frame)`, pure virtual in the header, whose
comment reads "If required size is bigger than allocated one, new buffers of adequate
size will be allocated. Return value: 0 on success ,-1 on error." `dest` is the frame
`*dest_frame` points to before the call (`none` when there is none yet); the result is
the return value with `*dest_frame` after the call. Each plane is copied with
`Plane.copyInto`; when an allocation fails the call returns -1 and leaves the
destination as it was (the spec: no half-copied frame on failure). -/
def copyFrame (alloc : Nat → Bool) (f : IVideoFrame) (dest : Option IVideoFrame) :
    Int × Option IVideoFrame :=
  match f.y_plane.copyInto alloc (dest.map (fun d => d.y_plane)),
        f.u_plane.copyInto alloc (dest.map (fun d => d.u_plane)),
        f.v_plane.copyInto alloc (dest.map (fun d => d.v_plane)) with
  | some y, some u, some v =>
    (0, some { y_plane := y, u_plane := u, v_plane := v,
               width := f.width, height := f.height,
               timestamp := f.timestamp, render_time_ms := f.render_time_ms,
               video_type := f.video_type })
  | _, _, _ => (-1, dest)

end IVideoFrame

/-! ## The stage behind an interception point

The header declares the observer callbacks; the pipeline that calls them on each
frame and hands the kept frames on is not part of it. -/

/-- Modelled from the spec: what the callback of an interception point answers for
each frame of a sequence, in order (the calling pipeline is absent from the header).
The callback gets each frame by reference with the observer's state as the previous
call left it; an outcome is the returned boolean with the frame as the callback left
it. -/
def callbackOutcomes {σ α : Type} (callback : σ → α → (Bool × α) × σ) :
    σ → List α → List (Bool × α)
  | _, [] => []
  | s, f :: fs => (callback s f).1 :: callbackOutcomes callback (callback s f).2 fs

/-- Modelled from the spec: the frames that reach the downstream stage of an
interception point (the calling pipeline is absent from the header): "`true` =
deliver/keep frame downstream, `false` = drop it", a kept frame going on as the
callback left it. -/
def deliverDownstream {σ α : Type} (callback : σ → α → (Bool × α) × σ) (s : σ)
    (frames : List α) : List α :=
  ((callbackOutcomes callback s frames).filter (fun o => o.1)).map (fun o => o.2)

/-! ## Concrete frames -/

/-- A 640x480 YUV 4:2:0 `VideoFrame` with the given render time and rotation. -/
def IVideoFrameObserver.VideoFrame.vga (renderTimeMs rotation : Int) :
    IVideoFrameObserver.VideoFrame :=
  { type := .FRAME_TYPE_YUV420, width := 640, height := 480,
    yStride := 640, uStride := 320, vStride := 320,
    yBuffer := 65536, uBuffer := 372736, vBuffer := 449536,
    rotation := rotation, renderTimeMs := renderTimeMs, avsync_type := 0 }

/-- A callback that drops the frame rendered at 33 ms and keeps every other frame,
leaving frames and observer state as they are. -/
def IVideoFrameObserver.dropAt33 (self : Unit) (videoFrame : IVideoFrameObserver.VideoFrame) :
    (Bool × IVideoFrameObserver.VideoFrame) × Unit :=
  ((videoFrame.renderTimeMs != 33, videoFrame), self)

/-- A 2x2 I420 frame: four luma bytes and one byte for each chroma plane. -/
def IVideoFrame.tiny : IVideoFrame :=
  { y_plane := { data := [16, 32, 48, 64], stride := 2, rows := 2 },
    u_plane := { data := [128], stride := 1, rows := 1 },
    v_plane := { data := [200], stride := 1, rows := 1 },
    width := 2, height := 2, timestamp := 90000, render_time_ms := 1000,
    video_type := .VIDEO_TYPE_I420 }

/-- A destination frame whose Y buffer is larger than `tiny` needs, whose U buffer is
of zero size and whose V buffer fits exactly. -/
def IVideoFrame.stale : IVideoFrame :=
  { y_plane := { data := [1, 2, 3, 4, 5, 6], stride := 3, rows := 2 },
    u_plane := { data := [], stride := 0, rows := 0 },
    v_plane := { data := [9], stride := 1, rows := 1 },
    width := 3, height := 2, timestamp := 0, render_time_ms := 0,
    video_type := .VIDEO_TYPE_I420 }

/-! ## Observer defaults -/

section ObserverDefaults

open IVideoFrameObserver

/-- C1: the default `onPreEncodeVideoFrame` accepts every frame. For an observer
built from the two pure virtual callbacks alone, whatever they are, in every observer
state and for every `VideoFrame` value, `onPreEncodeVideoFrame` returns `true`. -/
theorem onPreEncodeVideoFrame_default_accepts {σ : Type}
    (onCapture : σ → VideoFrame → (Bool × VideoFrame) × σ)
    (onRender : σ → Nat → VideoFrame → (Bool × VideoFrame) × σ)
    (self : σ) (videoFrame : VideoFrame) :
    (({ onCaptureVideoFrame := onCapture, onRenderVideoFrame := onRender } :
        IVideoFrameObserver σ).onPreEncodeVideoFrame self videoFrame).1.1 = true :=
  rfl

/-- C2: the default `getVideoFormatPreference` returns `FRAME_TYPE_YUV420`, whose
numeric code is 0, and neither `FRAME_TYPE_YUV422` nor `FRAME_TYPE_RGBA`, in every
observer state. -/
theorem getVideoFormatPreference_default_YUV420 {σ : Type}
    (onCapture : σ → VideoFrame → (Bool × VideoFrame) × σ)
    (onRender : σ → Nat → VideoFrame → (Bool × VideoFrame) × σ)
    (self : σ) :
    (({ onCaptureVideoFrame := onCapture, onRenderVideoFrame := onRender } :
        IVideoFrameObserver σ).getVideoFormatPreference self).1
      = VIDEO_FRAME_TYPE.FRAME_TYPE_YUV420 ∧
    (({ onCaptureVideoFrame := onCapture, onRenderVideoFrame := onRender } :
        IVideoFrameObserver σ).getVideoFormatPreference self).1.toInt = 0 ∧
    (({ onCaptureVideoFrame := onCapture, onRenderVideoFrame := onRender } :
        IVideoFrameObserver σ).getVideoFormatPreference self).1
      ≠ VIDEO_FRAME_TYPE.FRAME_TYPE_YUV422 ∧
    (({ onCaptureVideoFrame := onCapture, onRenderVideoFrame := onRender } :
        IVideoFrameObserver σ).getVideoFormatPreference self).1
      ≠ VIDEO_FRAME_TYPE.FRAME_TYPE_RGBA := by
  refine ⟨rfl, rfl, ?_, ?_⟩ <;> exact fun h => VIDEO_FRAME_TYPE.noConfusion h

/-- C3: for an observer that overrides none of them, `getRotationApplied`,
`getMirrorApplied` and `getSmoothRenderingEnabled` each return `false`, in every
observer state. -/
theorem negotiation_hooks_default_false {σ : Type}
    (onCapture : σ → VideoFrame → (Bool × VideoFrame) × σ)
    (onRender : σ → Nat → VideoFrame → (Bool × VideoFrame) × σ)
    (self : σ) :
    (({ onCaptureVideoFrame := onCapture, onRenderVideoFrame := onRender } :
        IVideoFrameObserver σ).getRotationApplied self).1 = false ∧
    (({ onCaptureVideoFrame := onCapture, onRenderVideoFrame := onRender } :
        IVideoFrameObserver σ).getMirrorApplied self).1 = false ∧
    (({ onCaptureVideoFrame := onCapture, onRenderVideoFrame := onRender } :
        IVideoFrameObserver σ).getSmoothRenderingEnabled self).1 = false :=
  ⟨rfl, rfl, rfl⟩

end ObserverDefaults

/-! ## Enumerations -/

section Enumerations

open IAudioFrameObserver IVideoFrameObserver IVideoFrame ExternalVideoFrame

/-- C8: the type of an `AudioFrame` is fixed to 16-bit PCM. `AUDIO_FRAME_TYPE`
declares exactly one enumerator, `FRAME_TYPE_PCM16`, its numeric code is 0 and 0 is
the only code that stands for an enumerator, so every `AudioFrame` (its `type` being a
declared enumerator) has `type == FRAME_TYPE_PCM16`, of code 0. -/
theorem audioFrame_type_fixed_PCM16 (audioFrame : AudioFrame) :
    AUDIO_FRAME_TYPE.enumerators = [AUDIO_FRAME_TYPE.FRAME_TYPE_PCM16] ∧
    (∀ t : AUDIO_FRAME_TYPE, t ∈ AUDIO_FRAME_TYPE.enumerators) ∧
    AUDIO_FRAME_TYPE.FRAME_TYPE_PCM16.toInt = 0 ∧
    (∀ c : Int, (AUDIO_FRAME_TYPE.ofInt c).isSome = true ↔ c = 0) ∧
    audioFrame.type = AUDIO_FRAME_TYPE.FRAME_TYPE_PCM16 ∧
    audioFrame.type.toInt = 0 := by
  have ht : audioFrame.type = AUDIO_FRAME_TYPE.FRAME_TYPE_PCM16 := by
    cases audioFrame.type
    rfl
  refine ⟨rfl, ?_, rfl, ?_, ht, by rw [ht]; rfl⟩
  · intro t
    cases t
    simp [AUDIO_FRAME_TYPE.enumerators]
  · intro c
    simp only [AUDIO_FRAME_TYPE.ofInt, AUDIO_FRAME_TYPE.enumerators, List.find?,
      AUDIO_FRAME_TYPE.toInt]
    by_cases hc : (0 : Int) = c
    · subst hc
      simp
    · have hb : ((0 : Int) == c) = false := by simpa using hc
      rw [hb]
      constructor
      · intro hf
        simp at hf
      · intro hz
        exact absurd hz.symm hc

/-- C9: the plane enumeration is a valid index set. `Y_PLANE`, `U_PLANE` and
`V_PLANE` have the pairwise distinct codes 0, 1 and 2, `NUM_OF_PLANES` is 3, the
number of planes, a code `c` names a plane exactly when `0 ≤ c < NUM_OF_PLANES`, and
a per-plane table of `NUM_OF_PLANES` entries has an entry at the code of every
plane. -/
theorem plane_type_valid_index_set {α : Type} (table : List α)
    (h : (table.length : Int) = PLANE_TYPE.NUM_OF_PLANES.toInt) :
    PLANE_TYPE.Y_PLANE.toInt = 0 ∧ PLANE_TYPE.U_PLANE.toInt = 1 ∧
    PLANE_TYPE.V_PLANE.toInt = 2 ∧ PLANE_TYPE.NUM_OF_PLANES.toInt = 3 ∧
    (PLANE_TYPE.planes.map PLANE_TYPE.toInt).Nodup ∧
    PLANE_TYPE.NUM_OF_PLANES.toInt = (PLANE_TYPE.planes.length : Int) ∧
    (∀ c : Int, (∃ p ∈ PLANE_TYPE.planes, p.toInt = c) ↔
      (0 ≤ c ∧ c < PLANE_TYPE.NUM_OF_PLANES.toInt)) ∧
    (∀ p ∈ PLANE_TYPE.planes,
      0 ≤ p.toInt ∧ p.toInt.toNat < table.length ∧ (table[p.toInt.toNat]?).isSome = true) := by
  refine ⟨rfl, rfl, rfl, rfl, by decide, rfl, ?_, ?_⟩
  · intro c
    simp only [PLANE_TYPE.planes, List.mem_cons, List.mem_singleton, List.not_mem_nil,
      or_false, PLANE_TYPE.toInt]
    constructor
    · rintro ⟨p, hp, rfl⟩
      rcases hp with rfl | rfl | rfl <;> simp [PLANE_TYPE.toInt]
    · rintro ⟨h0, h3⟩
      have : c = 0 ∨ c = 1 ∨ c = 2 := by omega
      rcases this with rfl | rfl | rfl
      · exact ⟨.Y_PLANE, Or.inl rfl, rfl⟩
      · exact ⟨.U_PLANE, Or.inr (Or.inl rfl), rfl⟩
      · exact ⟨.V_PLANE, Or.inr (Or.inr rfl), rfl⟩
  · intro p hp
    have hlen : table.length = 3 := by
      have : (table.length : Int) = 3 := h
      omega
    simp only [PLANE_TYPE.planes, List.mem_cons, List.mem_singleton, List.not_mem_nil,
      or_false] at hp
    rcases hp with rfl | rfl | rfl <;>
      simp [PLANE_TYPE.toInt, hlen, List.getElem?_eq_getElem]

/-- C9 at a concrete table: the three plane strides of a 640 pixel wide I420 frame. -/
theorem plane_type_valid_index_set_witness :
    (([640, 320, 320] : List Nat).length : Int) = PLANE_TYPE.NUM_OF_PLANES.toInt ∧
    ∀ p ∈ PLANE_TYPE.planes,
      0 ≤ p.toInt ∧ p.toInt.toNat < ([640, 320, 320] : List Nat).length ∧
        (([640, 320, 320] : List Nat)[p.toInt.toNat]?).isSome = true :=
  ⟨by decide, (plane_type_valid_index_set [640, 320, 320] (by decide)).2.2.2.2.2.2.2⟩

/-- C10: the numeric codes of the pixel-format enumerations are not interchangeable.
Among the formats `VIDEO_PIXEL_FORMAT` and `VIDEO_TYPE` both name (I420, BGRA, NV12,
I422) the codes agree for I420 alone (1 and 1; BGRA is 2 and 15, NV12 is 8 and 14,
I422 is 16 and 17, 16 being `VIDEO_TYPE_RGBA`), and `VIDEO_FRAME_TYPE` agrees with
`VIDEO_TYPE` on none of its formats (0 and 1, 1 and 17, 2 and 16). So a code of one
enumeration read as the other never gives the same format, `VIDEO_PIXEL_I420` apart:
the code of BGRA, NV12, I422 reads as `VIDEO_TYPE_IYUV`, `VIDEO_TYPE_ARGB1555`,
`VIDEO_TYPE_RGBA`, and that of YUV420, YUV422, RGBA as `VIDEO_TYPE_UNKNOWN`,
`VIDEO_TYPE_I420`, `VIDEO_TYPE_IYUV`. -/
theorem pixel_format_codes_not_interchangeable :
    (VIDEO_PIXEL_FORMAT.VIDEO_PIXEL_I420.toInt = 1 ∧ VIDEO_TYPE.VIDEO_TYPE_I420.toInt = 1) ∧
    (VIDEO_PIXEL_FORMAT.VIDEO_PIXEL_BGRA.toInt = 2 ∧ VIDEO_TYPE.VIDEO_TYPE_BGRA.toInt = 15) ∧
    (VIDEO_PIXEL_FORMAT.VIDEO_PIXEL_NV12.toInt = 8 ∧ VIDEO_TYPE.VIDEO_TYPE_NV12.toInt = 14) ∧
    (VIDEO_PIXEL_FORMAT.VIDEO_PIXEL_I422.toInt = 16 ∧ VIDEO_TYPE.VIDEO_TYPE_I422.toInt = 17) ∧
    VIDEO_TYPE.VIDEO_TYPE_RGBA.toInt = 16 ∧
    (VIDEO_FRAME_TYPE.FRAME_TYPE_YUV420.toInt = 0 ∧ VIDEO_FRAME_TYPE.FRAME_TYPE_YUV422.toInt = 1 ∧
      VIDEO_FRAME_TYPE.FRAME_TYPE_RGBA.toInt = 2) ∧
    (∀ (p : VIDEO_PIXEL_FORMAT) (t : VIDEO_TYPE), p.sameFormat = some t →
      (p.toInt = t.toInt ↔ p = VIDEO_PIXEL_FORMAT.VIDEO_PIXEL_I420)) ∧
    (∀ f : VIDEO_FRAME_TYPE, f.toInt ≠ f.sameFormat.toInt) ∧
    (∀ (p : VIDEO_PIXEL_FORMAT) (t : VIDEO_TYPE), p.sameFormat = some t →
      ((VIDEO_TYPE.ofInt p.toInt = some t ↔ p = VIDEO_PIXEL_FORMAT.VIDEO_PIXEL_I420) ∧
       (VIDEO_PIXEL_FORMAT.ofInt t.toInt = some p ↔ p = VIDEO_PIXEL_FORMAT.VIDEO_PIXEL_I420))) ∧
    (∀ f : VIDEO_FRAME_TYPE,
      VIDEO_TYPE.ofInt f.toInt ≠ some f.sameFormat ∧
      VIDEO_FRAME_TYPE.ofInt f.sameFormat.toInt ≠ some f) ∧
    (VIDEO_TYPE.ofInt VIDEO_PIXEL_FORMAT.VIDEO_PIXEL_BGRA.toInt
        = some VIDEO_TYPE.VIDEO_TYPE_IYUV ∧
     VIDEO_TYPE.ofInt VIDEO_PIXEL_FORMAT.VIDEO_PIXEL_NV12.toInt
        = some VIDEO_TYPE.VIDEO_TYPE_ARGB1555 ∧
     VIDEO_TYPE.ofInt VIDEO_PIXEL_FORMAT.VIDEO_PIXEL_I422.toInt
        = some VIDEO_TYPE.VIDEO_TYPE_RGBA) ∧
    (VIDEO_TYPE.ofInt VIDEO_FRAME_TYPE.FRAME_TYPE_YUV420.toInt
        = some VIDEO_TYPE.VIDEO_TYPE_UNKNOWN ∧
     VIDEO_TYPE.ofInt VIDEO_FRAME_TYPE.FRAME_TYPE_YUV422.toInt
        = some VIDEO_TYPE.VIDEO_TYPE_I420 ∧
     VIDEO_TYPE.ofInt VIDEO_FRAME_TYPE.FRAME_TYPE_RGBA.toInt
        = some VIDEO_TYPE.VIDEO_TYPE_IYUV) := by
  refine ⟨⟨rfl, rfl⟩, ⟨rfl, rfl⟩, ⟨rfl, rfl⟩, ⟨rfl, rfl⟩, rfl, ⟨rfl, rfl, rfl⟩,
    ?_, ?_, ?_, ?_, ⟨by decide, by decide, by decide⟩, ⟨by decide, by decide, by decide⟩⟩
  · intro p t hpt
    cases p <;> simp only [VIDEO_PIXEL_FORMAT.sameFormat, Option.some.injEq] at hpt <;>
      first
        | exact absurd hpt (by simp)
        | (subst hpt; decide)
  · intro f
    cases f <;> decide
  · intro p t hpt
    cases p <;> simp only [VIDEO_PIXEL_FORMAT.sameFormat, Option.some.injEq] at hpt <;>
      first
        | exact absurd hpt (by simp)
        | (subst hpt; decide)
  · intro f
    cases f <;> decide

/-- C10 at a concrete format: BGRA is named by both enumerations, and neither does
the `VIDEO_PIXEL_FORMAT` code of BGRA read as `VIDEO_TYPE_BGRA` nor the `VIDEO_TYPE`
code of BGRA as `VIDEO_PIXEL_BGRA`. -/
theorem pixel_format_codes_not_interchangeable_witness :
    VIDEO_PIXEL_FORMAT.VIDEO_PIXEL_BGRA.sameFormat = some VIDEO_TYPE.VIDEO_TYPE_BGRA ∧
    ¬ (VIDEO_TYPE.ofInt VIDEO_PIXEL_FORMAT.VIDEO_PIXEL_BGRA.toInt
        = some VIDEO_TYPE.VIDEO_TYPE_BGRA) ∧
    ¬ (VIDEO_PIXEL_FORMAT.ofInt VIDEO_TYPE.VIDEO_TYPE_BGRA.toInt
        = some VIDEO_PIXEL_FORMAT.VIDEO_PIXEL_BGRA) :=
  ⟨rfl,
   fun h => absurd
     ((pixel_format_codes_not_interchangeable.2.2.2.2.2.2.2.2.1
        VIDEO_PIXEL_FORMAT.VIDEO_PIXEL_BGRA VIDEO_TYPE.VIDEO_TYPE_BGRA rfl).1.mp h)
     (by decide),
   fun h => absurd
     ((pixel_format_codes_not_interchangeable.2.2.2.2.2.2.2.2.1
        VIDEO_PIXEL_FORMAT.VIDEO_PIXEL_BGRA VIDEO_TYPE.VIDEO_TYPE_BGRA rfl).2.mp h)
     (by decide)⟩

end Enumerations

/-! ## The frame behind `IVideoFrame` -/

namespace IVideoFrame

/-- A plane copied into a destination has the source's stride, rows and contents,
provided the source buffer holds its picture. -/
theorem Plane.copyInto_eq_some (alloc : Nat → Bool) (src : Plane) (dest : Option Plane)
    (q : Plane) (hsrc : src.required ≤ src.data.length)
    (hq : src.copyInto alloc dest = some q) :
    q.stride = src.stride ∧ q.rows = src.rows ∧ q.contents = src.contents := by
  have hlen : src.contents.length = src.required := by
    simp [Plane.contents, List.length_take, hsrc]
  have hfresh : ∀ q0 : Plane,
      q0 = { data := src.contents, stride := src.stride, rows := src.rows } →
      q0.stride = src.stride ∧ q0.rows = src.rows ∧ q0.contents = src.contents := by
    intro q0 h0
    subst h0
    refine ⟨rfl, rfl, ?_⟩
    simp [Plane.contents, Plane.required]
  have hreuse : ∀ (d : Plane) (q0 : Plane),
      q0 = { data := src.contents ++ d.data.drop src.required,
             stride := src.stride, rows := src.rows } →
      q0.stride = src.stride ∧ q0.rows = src.rows ∧ q0.contents = src.contents := by
    intro d q0 h0
    subst h0
    refine ⟨rfl, rfl, ?_⟩
    show (src.contents ++ d.data.drop src.required).take (src.stride * src.rows) = src.contents
    have h2 : src.stride * src.rows = src.contents.length := by
      rw [hlen]; rfl
    rw [h2, List.take_left']
    rfl
  unfold Plane.copyInto at hq
  cases dest with
  | none =>
    simp only at hq
    split at hq
    · exact hfresh q (Option.some.inj hq).symm
    · exact absurd hq (by simp)
  | some d =>
    simp only at hq
    split at hq
    · exact hreuse d q (Option.some.inj hq).symm
    · split at hq
      · exact hfresh q (Option.some.inj hq).symm
      · exact absurd hq (by simp)

/-- A plane copy succeeds when the allocator grants every request. -/
theorem Plane.copyInto_isSome (alloc : Nat → Bool) (src : Plane) (dest : Option Plane)
    (halloc : ∀ n, alloc n = true) : (src.copyInto alloc dest).isSome = true := by
  unfold Plane.copyInto
  cases dest with
  | none => simp [halloc]
  | some d =>
    simp only [halloc, if_true]
    split <;> rfl

/-- C4: for every valid frame `f`, a `copyFrame` that returns 0 leaves in the
destination a frame `g` with `g.width() == f.width()`, `g.height() == f.height()` and,
for each of the planes Y, U and V, the contents of `f`; a call that does not return 0
returns -1 (and leaves the destination as it was), and the call does return 0 when
the allocator grants every request. -/
theorem copyFrame_success_copies (alloc : Nat → Bool) (f : IVideoFrame)
    (dest : Option IVideoFrame) (hf : f.valid = true) :
    ((f.copyFrame alloc dest).1 = 0 →
      ∃ g, (f.copyFrame alloc dest).2 = some g ∧ g.width = f.width ∧ g.height = f.height ∧
        ∀ type ∈ PLANE_TYPE.planes, g.contents type = f.contents type) ∧
    ((f.copyFrame alloc dest).1 = 0 ∨
      ((f.copyFrame alloc dest).1 = -1 ∧ (f.copyFrame alloc dest).2 = dest)) ∧
    ((∀ n, alloc n = true) → (f.copyFrame alloc dest).1 = 0) := by
  simp only [valid, Bool.and_eq_true, decide_eq_true_eq] at hf
  obtain ⟨⟨hy, hu⟩, hv⟩ := hf
  have hY := Plane.copyInto_eq_some alloc f.y_plane (dest.map (fun d => d.y_plane))
  have hU := Plane.copyInto_eq_some alloc f.u_plane (dest.map (fun d => d.u_plane))
  have hV := Plane.copyInto_eq_some alloc f.v_plane (dest.map (fun d => d.v_plane))
  have sY := Plane.copyInto_isSome alloc f.y_plane (dest.map (fun d => d.y_plane))
  have sU := Plane.copyInto_isSome alloc f.u_plane (dest.map (fun d => d.u_plane))
  have sV := Plane.copyInto_isSome alloc f.v_plane (dest.map (fun d => d.v_plane))
  unfold copyFrame
  split
  · rename_i y u v hcy hcu hcv
    refine ⟨fun _ => ⟨_, rfl, rfl, rfl, ?_⟩, Or.inl rfl, fun _ => rfl⟩
    intro type ht
    simp only [PLANE_TYPE.planes, List.mem_cons, List.mem_singleton, List.not_mem_nil,
      or_false] at ht
    rcases ht with rfl | rfl | rfl
    · simp only [contents, plane?, Option.map_some']
      rw [(hY y hy hcy).2.2]
    · simp only [contents, plane?, Option.map_some']
      rw [(hU u hu hcu).2.2]
    · simp only [contents, plane?, Option.map_some']
      rw [(hV v hv hcv).2.2]
  · rename_i hnot
    refine ⟨fun h => absurd (show (-1 : Int) = 0 from h) (by decide), Or.inr ⟨rfl, rfl⟩,
      fun ha => ?_⟩
    obtain ⟨y, hcy⟩ := Option.isSome_iff_exists.mp (sY ha)
    obtain ⟨u, hcu⟩ := Option.isSome_iff_exists.mp (sU ha)
    obtain ⟨v, hcv⟩ := Option.isSome_iff_exists.mp (sV ha)
    exact absurd hcv (hnot y u v hcy hcu)

/-- C4 at a concrete call: the 2x2 frame `tiny` copied into `stale`, the allocator
granting every request. The call returns 0 and the destination holds a 2x2 frame
with the three planes of `tiny`. -/
theorem copyFrame_success_copies_witness :
    tiny.valid = true ∧
    (tiny.copyFrame (fun _ => true) (some stale)).1 = 0 ∧
    ∃ g, (tiny.copyFrame (fun _ => true) (some stale)).2 = some g ∧
      g.width = tiny.width ∧ g.height = tiny.height ∧
      ∀ type ∈ PLANE_TYPE.planes, g.contents type = tiny.contents type :=
  ⟨by decide, by decide,
   (copyFrame_success_copies (fun _ => true) tiny (some stale) (by decide)).1 (by decide)⟩

/-- C5: `IsZeroSize()` is true exactly when the allocated sizes of the Y, the U and
the V plane are all zero. -/
theorem IsZeroSize_iff_allocated_sizes_zero (f : IVideoFrame) :
    f.IsZeroSize = true ↔
      (f.allocated_size PLANE_TYPE.Y_PLANE = some 0 ∧
       f.allocated_size PLANE_TYPE.U_PLANE = some 0 ∧
       f.allocated_size PLANE_TYPE.V_PLANE = some 0) := by
  simp [IsZeroSize, allocated_size, plane?, List.isEmpty_iff, and_assoc]

end IVideoFrame

/-! ## The stage behind an interception point -/

section Interception

open IVideoFrameObserver

variable {σ α : Type}

/-- One outcome per frame. -/
theorem callbackOutcomes_length (callback : σ → α → (Bool × α) × σ) (s : σ)
    (frames : List α) : (callbackOutcomes callback s frames).length = frames.length := by
  induction frames generalizing s with
  | nil => rfl
  | cons f fs ih => simp [callbackOutcomes, ih]

/-- A callback that leaves every frame as it got it hands the frames on unchanged. -/
theorem callbackOutcomes_map_snd (callback : σ → α → (Bool × α) × σ)
    (hkeep : ∀ s f, (callback s f).1.2 = f) (s : σ) (frames : List α) :
    (callbackOutcomes callback s frames).map (fun o => o.2) = frames := by
  induction frames generalizing s with
  | nil => rfl
  | cons f fs ih => simp [callbackOutcomes, ih, hkeep]

/-- Erasing a position commutes with mapping. -/
theorem map_eraseIdx_comm {β γ : Type} (g : β → γ) (l : List β) (k : Nat) :
    (l.eraseIdx k).map g = (l.map g).eraseIdx k := by
  induction l generalizing k with
  | nil => rfl
  | cons b bs ih =>
    cases k with
    | zero => rfl
    | succ k => simp [List.eraseIdx_cons_succ, ih]

/-- Keeping the entries marked `true` of a list in which the entry at `k` alone is
marked `false` erases the entry at `k`. -/
theorem filter_fst_eq_eraseIdx (l : List (Bool × α)) (k : Nat) (hk : k < l.length)
    (h : ∀ i, i < l.length → (l[i]?).map (fun o => o.1) = some (!decide (i = k))) :
    l.filter (fun o => o.1) = l.eraseIdx k := by
  induction l generalizing k with
  | nil => exact absurd hk (by simp)
  | cons o os ih =>
    have h0 := h 0 (by simp)
    cases k with
    | zero =>
      have ho : o.1 = false := by simpa using h0
      have hall : ∀ x ∈ os, x.1 = true := by
        intro x hx
        obtain ⟨i, hi, rfl⟩ := List.getElem_of_mem hx
        have := h (i + 1) (by simpa using hi)
        simpa [List.getElem?_eq_getElem hi] using this
      simp only [List.filter_cons, ho, List.eraseIdx_cons_zero]
      simpa [List.filter_eq_self] using hall
    | succ k =>
      have ho : o.1 = true := by simpa using h0
      have hk2 : k < os.length := by simpa using hk
      have hrest : ∀ i, i < os.length →
          (os[i]?).map (fun o => o.1) = some (!decide (i = k)) := by
        intro i hi
        have := h (i + 1) (by simpa using hi)
        simpa using this
      simp [List.filter_cons, ho, ih k hk2 hrest]

/-- C6: observer drop semantics. When the callback of an interception point returns
`false` for the frame at position `k` of a sequence of N frames and `true` for every
other one, exactly N-1 frames reach the downstream stage: the frames at the positions
other than `k`, in their original order, each as the callback left it, hence the
original frames without frame `k` when the callback changes no frame. -/
theorem observer_drop_exactly_frame_k (callback : σ → α → (Bool × α) × σ) (s : σ)
    (frames : List α) (k : Nat) (hk : k < frames.length)
    (hdrop : ∀ i, i < frames.length →
      ((callbackOutcomes callback s frames)[i]?).map (fun o => o.1)
        = some (!decide (i = k))) :
    (deliverDownstream callback s frames).length = frames.length - 1 ∧
    deliverDownstream callback s frames
      = ((callbackOutcomes callback s frames).eraseIdx k).map (fun o => o.2) ∧
    ((∀ s f, (callback s f).1.2 = f) →
      deliverDownstream callback s frames = frames.eraseIdx k) := by
  have hlen := callbackOutcomes_length callback s frames
  have hfilter : (callbackOutcomes callback s frames).filter (fun o => o.1)
      = (callbackOutcomes callback s frames).eraseIdx k :=
    filter_fst_eq_eraseIdx _ k (by rw [hlen]; exact hk) (by rw [hlen]; exact hdrop)
  have hmain : deliverDownstream callback s frames
      = ((callbackOutcomes callback s frames).eraseIdx k).map (fun o => o.2) := by
    unfold deliverDownstream
    rw [hfilter]
  refine ⟨?_, hmain, ?_⟩
  · rw [hmain, List.length_map, List.length_eraseIdx, hlen, if_pos hk]
  · intro hkeep
    rw [hmain, map_eraseIdx_comm, callbackOutcomes_map_snd callback hkeep]

/-- C6 at a concrete sequence: four frames rendered at 0, 33, 66 and 100 ms pass a
callback that drops the one at 33 ms (position 1); the other three go on, in order. -/
theorem observer_drop_exactly_frame_k_witness :
    (1 < [VideoFrame.vga 0 0, VideoFrame.vga 33 0, VideoFrame.vga 66 0,
          VideoFrame.vga 100 0].length) ∧
    (∀ i, i < [VideoFrame.vga 0 0, VideoFrame.vga 33 0, VideoFrame.vga 66 0,
               VideoFrame.vga 100 0].length →
      ((callbackOutcomes dropAt33 ()
          [VideoFrame.vga 0 0, VideoFrame.vga 33 0, VideoFrame.vga 66 0,
           VideoFrame.vga 100 0])[i]?).map (fun o => o.1) = some (!decide (i = 1))) ∧
    deliverDownstream dropAt33 ()
        [VideoFrame.vga 0 0, VideoFrame.vga 33 0, VideoFrame.vga 66 0, VideoFrame.vga 100 0]
      = [VideoFrame.vga 0 0, VideoFrame.vga 66 0, VideoFrame.vga 100 0] :=
  ⟨by decide, by decide,
   (observer_drop_exactly_frame_k dropAt33 ()
      [VideoFrame.vga 0 0, VideoFrame.vga 33 0, VideoFrame.vga 66 0, VideoFrame.vga 100 0]
      1 (by decide) (by decide)).2.2 (fun _ _ => rfl)⟩

end Interception

end media
end agora
